import Mathlib

/-!
Shallow embedding of the CodeComparison tool (src/main.py).

The program reads a tabular file (csv/xlsx), takes the set of first-column
values of its data rows coerced to text, reads a text document (docx/txt),
collects the set of substrings matched by a user regular-expression pattern,
and compares the two sets with pure set algebra; the result is rendered as a
three-column table where shorter columns are padded with blank cells.

Modelling decisions (the source is the authority):
- Python sets of strings become Finset String.
- Uploaded files are modelled after parsing: a tabular file is its header row
  plus data rows of cells (a cell is a string or a missing value, pandas NaN);
  a text file is either a docx (an ordered list of paragraph texts) or a txt
  (its UTF-8 decoded text).  Byte-level parse and decode failures (pandas
  ParseError, UnicodeDecodeError) are outside the modelled input space; the
  error constructors exist so the control flow is faithful.
- Python exceptions are error values of a result; messages passed to
  st.error are the List String component.
- The regular-expression model classifies every pattern string three ways,
  checked against CPython: ok patterns lie in an embedded fragment on which
  parsing and matching reproduce re semantics (literals, the dot, escape
  classes and their negations, character classes with ranges, the anchors
  and word boundaries, greedy and lazy star, plus, question mark and counted
  repeats, alternation, non-capturing groups and at most one capturing
  group, whose contents findall then returns as Python does); invalid
  patterns are a subset of those on which re.compile raises re.error; every
  construct whose validity or semantics the fragment does not settle
  (extension groups, possessive quantifiers, numeric and named escapes,
  backreferences, several capturing groups, escapes adjacent to class
  ranges) is classified unmodelled, and the embedding asserts nothing about
  runs that reach it.  Classes are matched over ASCII semantics.
-/

namespace CodeComparison

/-- Models Python str.endswith restricted to the uses in main.py: the file
name ends with the given suffix string. -/
def endsWithStr (s suff : String) : Bool :=
  suff.data.isSuffixOf s.data

/-- One item of a character class: a literal character, an inclusive
character range, or one of the escape classes and their negations. -/
inductive ClsItem
  | single (c : Char)
  | range (lo hi : Char)
  | digits
  | nondigits
  | words
  | nonwords
  | spaces
  | nonspaces
deriving DecidableEq

/-- Abstract syntax of the modelled fragment of Python regular expressions.
A star carries its greediness flag; plus, question-mark and counted repeats
are desugared at parse time; group is the single capturing group a modelled
pattern may contain. -/
inductive Regex
  | eps
  | lit (c : Char)
  | cls (neg : Bool) (items : List ClsItem)
  | dot
  | cat (r1 r2 : Regex)
  | alt (r1 r2 : Regex)
  | star (r : Regex) (greedy : Bool)
  | group (r : Regex)
  | anchorStart
  | anchorEnd
  | anchorEndStrict
  | wordBoundary (b : Bool)
deriving DecidableEq

/-- Python word characters, ASCII semantics: alphanumerics and underscore. -/
def isWordChar (c : Char) : Bool :=
  c.isAlphanum || c == '_'

/-- Python whitespace characters, ASCII semantics. -/
def isSpaceChar (c : Char) : Bool :=
  c == ' ' || c == '\t' || c == '\n' || c == '\r' || c == '\x0b' || c == '\x0c'

/-- Whether a single class item matches a character. -/
def ClsItem.matchesChar : ClsItem → Char → Bool
  | .single a, c => c == a
  | .range lo hi, c => decide (lo ≤ c) && decide (c ≤ hi)
  | .digits, c => c.isDigit
  | .nondigits, c => !c.isDigit
  | .words, c => isWordChar c
  | .nonwords, c => !isWordChar c
  | .spaces, c => isSpaceChar c
  | .nonspaces, c => !isSpaceChar c

/-- Whether a character class (possibly negated) matches a character. -/
def clsMatch (neg : Bool) (items : List ClsItem) (c : Char) : Bool :=
  (items.any (fun it => it.matchesChar c)) != neg

/-- State of a match in progress: the remaining suffix, the character just
before it (none at the start of the text, used by the anchors and word
boundaries), and the last text captured by the single capturing group. -/
structure MState where
  s : List Char
  prev : Option Char
  cap : Option (List Char)
deriving DecidableEq

/-- Backtracking matcher in continuation-passing style, modelling Python re
match semantics on the embedded fragment: alternatives are tried left first,
greedy stars prefer iterating, lazy stars prefer stopping; the first
accepting path wins, and the capturing group records the text of its most
recent iteration on that path.  The fuel bounds the recursion depth;
matchHere below supplies ample fuel for every input it is used on. -/
def mcps : Nat → Regex → MState → (MState → Option MState) → Option MState
  | 0, _, _, _ => none
  | fuel + 1, r, st, k =>
    match r with
    | .eps => k st
    | .lit c =>
      match st.s with
      | [] => none
      | x :: xs => if x == c then k ⟨xs, some x, st.cap⟩ else none
    | .cls neg items =>
      match st.s with
      | [] => none
      | x :: xs => if clsMatch neg items x then k ⟨xs, some x, st.cap⟩ else none
    | .dot =>
      match st.s with
      | [] => none
      | x :: xs => if x == '\n' then none else k ⟨xs, some x, st.cap⟩
    | .anchorStart =>
      match st.prev with
      | none => k st
      | some _ => none
    | .anchorEnd =>
      match st.s with
      | [] => k st
      | ['\n'] => k st
      | _ => none
    | .anchorEndStrict =>
      match st.s with
      | [] => k st
      | _ => none
    | .wordBoundary b =>
      let wp := match st.prev with
        | some c => isWordChar c
        | none => false
      let wn := match st.s with
        | c :: _ => isWordChar c
        | [] => false
      if (wp != wn) == b then k st else none
    | .group r1 =>
      mcps fuel r1 st (fun st1 =>
        k ⟨st1.s, st1.prev, some (st.s.take (st.s.length - st1.s.length))⟩)
    | .cat r1 r2 => mcps fuel r1 st (fun st1 => mcps fuel r2 st1 k)
    | .alt r1 r2 =>
      match mcps fuel r1 st k with
      | some res => some res
      | none => mcps fuel r2 st k
    | .star r1 g =>
      if g then
        match mcps fuel r1 st (fun st1 => mcps fuel (.star r1 g) st1 k) with
        | some res => some res
        | none => k st
      else
        match k st with
        | some res => some res
        | none => mcps fuel r1 st (fun st1 => mcps fuel (.star r1 g) st1 k)

/-- Structural size of a regex, used to compute a sufficient fuel. -/
def Regex.rsize : Regex → Nat
  | .eps => 1
  | .lit _ => 1
  | .cls _ _ => 1
  | .dot => 1
  | .anchorStart => 1
  | .anchorEnd => 1
  | .anchorEndStrict => 1
  | .wordBoundary _ => 1
  | .cat a b => a.rsize + b.rsize + 1
  | .alt a b => a.rsize + b.rsize + 1
  | .star a _ => a.rsize + 1
  | .group a => a.rsize + 1

/-- Attempt a match of the regex at the current position (suffix plus the
character before it), returning the state after the first (Python-priority)
match. -/
def matchHere (r : Regex) (prev : Option Char) (s : List Char) : Option MState :=
  mcps ((s.length + 2) * (r.rsize + 2) * 2) r ⟨s, prev, none⟩ some

/-- Scanning loop of re.findall: try a match at each position left to right;
a nonempty match is recorded and scanning resumes after it, an empty match
is recorded and scanning advances one character, and positions with no match
are skipped.  With the flag set the captured text of the single group (the
empty string if the group did not participate) is recorded instead of the
matched substring, as Python does for a one-group pattern.  The fuel is the
string length plus one, which the scan never exhausts. -/
def findallAux (g1 : Bool) : Nat → Regex → Option Char → List Char → List String
  | 0, _, _, _ => []
  | fuel + 1, r, prev, s =>
    match matchHere r prev s with
    | some st =>
      let consumed := s.length - st.s.length
      let item := if g1 then String.mk (st.cap.getD []) else String.mk (s.take consumed)
      if consumed == 0 then
        match s with
        | [] => [item]
        | x :: xs => item :: findallAux g1 fuel r (some x) xs
      else item :: findallAux g1 fuel r st.prev st.s
    | none =>
      match s with
      | [] => []
      | x :: xs => findallAux g1 fuel r (some x) xs

/-- Models re.findall for group-free patterns: the list of matched
substrings of the non-overlapping left-to-right matches. -/
def findall (r : Regex) (text : String) : List String :=
  findallAux false (text.data.length + 1) r none text.data

/-- Models re.findall for one-group patterns: the list of group captures of
the non-overlapping left-to-right matches. -/
def findallG1 (r : Regex) (text : String) : List String :=
  findallAux true (text.data.length + 1) r none text.data

/-- Outcome of parsing one construct: a Python re.error, or a construct
outside the embedded fragment about which the model asserts nothing. -/
inductive PErr
  | invalid (msg : String)
  | unmodelled (what : String)
deriving DecidableEq

/-- Numeric value of a digit run. -/
def digitsVal (ds : List Char) : Nat :=
  ds.foldl (fun acc c => acc * 10 + (c.toNat - 48)) 0

/-- Parse the inside of a brace quantifier after the opening brace: optional
digits, an optional comma with optional digits, and the closing brace.
Returns none when the text is not repeat syntax, in which case Python
treats the brace as a literal. -/
def braceSpec (s : List Char) : Option (Nat × Option Nat × List Char) :=
  let (d1, s1) := s.span (fun c => c.isDigit)
  match s1 with
  | '}' :: rest =>
    if d1.isEmpty then none else some (digitsVal d1, some (digitsVal d1), rest)
  | ',' :: s2 =>
    let (d2, s3) := s2.span (fun c => c.isDigit)
    match s3 with
    | '}' :: rest =>
      some (if d1.isEmpty then 0 else digitsVal d1,
            if d2.isEmpty then none else some (digitsVal d2), rest)
    | _ => none
  | _ => none

/-- The kind of one quantifier: star, plus, question mark, or a counted
repeat with its bounds. -/
inductive QtKind
  | star
  | plus
  | opt
  | rep (m : Nat) (n : Option Nat)

/-- Read the quantifier starting at the given characters, if any; a brace
that is not repeat syntax is not a quantifier. -/
def quantOf : List Char → Option (QtKind × List Char)
  | '*' :: rest => some (.star, rest)
  | '+' :: rest => some (.plus, rest)
  | '?' :: rest => some (.opt, rest)
  | '{' :: rest => (braceSpec rest).map (fun x => (QtKind.rep x.1 x.2.1, x.2.2))
  | _ => none

/-- Concatenate m copies of a regex before a tail. -/
def repCat (r : Regex) : Nat → Regex → Regex
  | 0, tail => tail
  | m + 1, tail => .cat r (repCat r m tail)

/-- A chain of up to k further optional copies of a regex, preferring more
copies when greedy and fewer when lazy. -/
def optChain (r : Regex) (greedy : Bool) : Nat → Regex
  | 0 => .eps
  | k + 1 =>
    if greedy then .alt (.cat r (optChain r greedy k)) .eps
    else .alt .eps (.cat r (optChain r greedy k))

/-- Apply a quantifier (with its laziness) to a regex, desugaring plus,
question mark and counted repeats; a counted repeat with min above max is
the Python error. -/
def applyQt (r : Regex) (q : QtKind) (lz : Bool) : Except PErr Regex :=
  match q with
  | .star => pure (.star r (!lz))
  | .plus => pure (.cat r (.star r (!lz)))
  | .opt => pure (if lz then .alt .eps r else .alt r .eps)
  | .rep m n =>
    match n with
    | none => pure (repCat r m (.star r (!lz)))
    | some nv =>
      if nv < m then .error (.invalid "min repeat greater than max repeat")
      else pure (repCat r m (optChain r (!lz) (nv - m)))

/-- Whether a class item is one of the shorthand escape classes, which
Python rejects as an endpoint of a character range. -/
def isShorthand : ClsItem → Bool
  | .digits | .nondigits | .words | .nonwords | .spaces | .nonspaces => true
  | _ => false

/-- Escapes accepted inside a character class, checked against CPython:
shorthand classes, control-character escapes (backslash b is a backspace
inside a class), punctuation escapes; unknown alphanumeric escapes are
Python errors; numeric and named escapes are outside the fragment. -/
def clsEscape (e : Char) : Except PErr ClsItem :=
  if e == 'd' then pure .digits
  else if e == 'D' then pure .nondigits
  else if e == 'w' then pure .words
  else if e == 'W' then pure .nonwords
  else if e == 's' then pure .spaces
  else if e == 'S' then pure .nonspaces
  else if e == 'n' then pure (.single '\n')
  else if e == 't' then pure (.single '\t')
  else if e == 'r' then pure (.single '\r')
  else if e == 'a' then pure (.single '\x07')
  else if e == 'f' then pure (.single '\x0c')
  else if e == 'v' then pure (.single '\x0b')
  else if e == 'b' then pure (.single '\x08')
  else if e == 'x' || e == 'u' || e == 'U' || e == 'N' || e.isDigit then
    .error (.unmodelled "numeric or named escape")
  else if e.isAlphanum then .error (.invalid "bad escape")
  else pure (.single e)

/-- Escapes accepted at top level of a pattern, checked against CPython;
the boolean flag is whether the resulting atom may carry a quantifier
(Python rejects quantified bare anchors and word boundaries with nothing to
repeat). -/
def pEscTop : List Char → Except PErr (Regex × List Char × Bool)
  | [] => .error (.invalid "bad escape (end of pattern)")
  | e :: rest =>
    if e == 'd' then pure (Regex.cls false [.digits], rest, true)
    else if e == 'D' then pure (Regex.cls true [.digits], rest, true)
    else if e == 'w' then pure (Regex.cls false [.words], rest, true)
    else if e == 'W' then pure (Regex.cls true [.words], rest, true)
    else if e == 's' then pure (Regex.cls false [.spaces], rest, true)
    else if e == 'S' then pure (Regex.cls true [.spaces], rest, true)
    else if e == 'b' then pure (Regex.wordBoundary true, rest, false)
    else if e == 'B' then pure (Regex.wordBoundary false, rest, false)
    else if e == 'A' then pure (Regex.anchorStart, rest, false)
    else if e == 'Z' then pure (Regex.anchorEndStrict, rest, false)
    else if e == 'n' then pure (Regex.lit '\n', rest, true)
    else if e == 't' then pure (Regex.lit '\t', rest, true)
    else if e == 'r' then pure (Regex.lit '\r', rest, true)
    else if e == 'a' then pure (Regex.lit '\x07', rest, true)
    else if e == 'f' then pure (Regex.lit '\x0c', rest, true)
    else if e == 'v' then pure (Regex.lit '\x0b', rest, true)
    else if e == 'x' || e == 'u' || e == 'U' || e == 'N' || e.isDigit then
      .error (.unmodelled "numeric, named or group-reference escape")
    else if e.isAlphanum then .error (.invalid "bad escape")
    else pure (Regex.lit e, rest, true)

mutual

/-- Parse an alternation, the top production of the pattern grammar,
threading the running count of capturing groups. -/
def pAlt : Nat → List Char → Nat → Except PErr (Regex × List Char × Nat)
  | 0, _, _ => .error (.unmodelled "parser fuel exhausted")
  | fuel + 1, s, gc => do
    let (r1, s1, g1) ← pSeq fuel s gc
    match s1 with
    | '|' :: rest => do
      let (r2, s2, g2) ← pAlt fuel rest g1
      pure (Regex.alt r1 r2, s2, g2)
    | _ => pure (r1, s1, g1)
termination_by structural fuel _ _ => fuel

/-- Parse a concatenation of quantified atoms. -/
def pSeq : Nat → List Char → Nat → Except PErr (Regex × List Char × Nat)
  | 0, _, _ => .error (.unmodelled "parser fuel exhausted")
  | fuel + 1, s, gc =>
    match s with
    | [] => pure (Regex.eps, [], gc)
    | '|' :: _ => pure (Regex.eps, s, gc)
    | ')' :: _ => pure (Regex.eps, s, gc)
    | _ => do
      let (r1, s1, g1) ← pRep fuel s gc
      let (r2, s2, g2) ← pSeq fuel s1 g1
      pure (Regex.cat r1 r2, s2, g2)
termination_by structural fuel _ _ => fuel

/-- Parse an atom followed by at most one quantifier, possibly lazy.  A
quantifier on a bare anchor or word boundary and a stacked quantifier are
the Python nothing-to-repeat and multiple-repeat errors; a possessive
quantifier is outside the fragment (its validity depends on the Python
version). -/
def pRep : Nat → List Char → Nat → Except PErr (Regex × List Char × Nat)
  | 0, _, _ => .error (.unmodelled "parser fuel exhausted")
  | fuel + 1, s, gc => do
    let (r, s1, g1, canQ) ← pAtom fuel s gc
    match quantOf s1 with
    | none => pure (r, s1, g1)
    | some (qk, rest) =>
      if !canQ then .error (.invalid "nothing to repeat")
      else do
        let (lz, rest2) := match rest with
          | '?' :: r2 => (true, r2)
          | _ => (false, rest)
        let rq ← applyQt r qk lz
        match rest2 with
        | '+' :: _ => .error (.unmodelled "possessive quantifier")
        | _ =>
          match quantOf rest2 with
          | some _ => .error (.invalid "multiple repeat")
          | none => pure (rq, rest2, g1)
termination_by structural fuel _ _ => fuel

/-- Parse one atom: a group, a character class, an anchor, an escape, the
dot, or a literal character, returning also whether a quantifier may follow
it.  A leading quantifier (including a brace that is valid repeat syntax)
is the Python nothing-to-repeat error; a brace that is not repeat syntax is
a literal as in Python; extension groups are outside the fragment. -/
def pAtom : Nat → List Char → Nat → Except PErr (Regex × List Char × Nat × Bool)
  | 0, _, _ => .error (.unmodelled "parser fuel exhausted")
  | fuel + 1, s, gc =>
    match s with
    | [] => .error (.invalid "unexpected end of pattern")
    | '(' :: '?' :: ':' :: rest => do
      let (r, s1, g1) ← pAlt fuel rest gc
      match s1 with
      | ')' :: s2 => pure (r, s2, g1, true)
      | _ => .error (.invalid "missing ), unterminated subpattern")
    | '(' :: '?' :: _ => .error (.unmodelled "extension group syntax")
    | '(' :: rest => do
      let (r, s1, g1) ← pAlt fuel rest gc
      match s1 with
      | ')' :: s2 => pure (Regex.group r, s2, g1 + 1, true)
      | _ => .error (.invalid "missing ), unterminated subpattern")
    | '[' :: '^' :: rest => do
      let (items, s1) ← pCls fuel rest true
      pure (Regex.cls true items, s1, gc, true)
    | '[' :: rest => do
      let (items, s1) ← pCls fuel rest true
      pure (Regex.cls false items, s1, gc, true)
    | '*' :: _ => .error (.invalid "nothing to repeat")
    | '+' :: _ => .error (.invalid "nothing to repeat")
    | '?' :: _ => .error (.invalid "nothing to repeat")
    | ')' :: _ => .error (.invalid "unbalanced parenthesis")
    | '^' :: rest => pure (Regex.anchorStart, rest, gc, false)
    | '$' :: rest => pure (Regex.anchorEnd, rest, gc, false)
    | '{' :: rest =>
      match braceSpec rest with
      | some _ => .error (.invalid "nothing to repeat")
      | none => pure (Regex.lit '{', rest, gc, true)
    | '\\' :: rest => do
      let (r, s1, canQ) ← pEscTop rest
      pure (r, s1, gc, canQ)
    | '.' :: rest => pure (Regex.dot, rest, gc, true)
    | c :: rest => pure (Regex.lit c, rest, gc, true)
termination_by structural fuel _ _ => fuel

/-- Parse the items of a character class up to the closing bracket; a
closing bracket in first position is a literal, reaching the end of the
pattern is the Python unterminated-character-set error, a shorthand class
as a range endpoint is the Python bad-character-range error, and a
single-character escape as a range endpoint is outside the fragment. -/
def pCls : Nat → List Char → Bool → Except PErr (List ClsItem × List Char)
  | 0, _, _ => .error (.unmodelled "parser fuel exhausted")
  | fuel + 1, s, first =>
    match s with
    | [] => .error (.invalid "unterminated character set")
    | ']' :: rest =>
      if first then do
        let (items, s1) ← pCls fuel rest false
        pure (ClsItem.single ']' :: items, s1)
      else pure ([], rest)
    | '\\' :: [] => .error (.invalid "bad escape (end of pattern)")
    | '\\' :: e :: rest => do
      let item ← clsEscape e
      match rest with
      | '-' :: ']' :: rest2 => pure ([item, ClsItem.single '-'], rest2)
      | '-' :: _ :: _ =>
        if isShorthand item then .error (.invalid "bad character range")
        else .error (.unmodelled "escape as range endpoint")
      | _ => do
        let (items, s1) ← pCls fuel rest false
        pure (item :: items, s1)
    | c :: '-' :: ']' :: rest => pure ([ClsItem.single c, ClsItem.single '-'], rest)
    | _ :: '-' :: '\\' :: rest3 =>
      match rest3 with
      | e :: _ =>
        if e == 'd' || e == 'D' || e == 'w' || e == 'W' || e == 's' || e == 'S' then
          .error (.invalid "bad character range")
        else .error (.unmodelled "escape as range endpoint")
      | [] => .error (.invalid "bad escape (end of pattern)")
    | c :: '-' :: d :: rest =>
      if c ≤ d then do
        let (items, s1) ← pCls fuel rest false
        pure (ClsItem.range c d :: items, s1)
      else .error (.invalid "bad character range")
    | c :: rest => do
      let (items, s1) ← pCls fuel rest false
      pure (ClsItem.single c :: items, s1)
termination_by structural fuel _ _ => fuel

end

/-- Three-way classification of a pattern string: a parsed regex of the
embedded fragment with its number of capturing groups, a pattern on which
re.compile raises re.error, or a pattern outside the fragment about which
the embedding asserts nothing. -/
inductive PatOut
  | ok (r : Regex) (groups : Nat)
  | invalid (msg : String)
  | unmodelled (what : String)
deriving DecidableEq

/-- Whether the classification is a parsed fragment pattern. -/
def PatOut.isOkB : PatOut → Bool
  | .ok _ _ => true
  | _ => false

/-- Models re.compile as the three-way classification: parse the pattern,
reject leftover text as the Python unbalanced-parenthesis error, and place
patterns with several capturing groups (whose findall results are tuples)
outside the fragment. -/
def parsePat (p : String) : PatOut :=
  match pAlt (p.data.length * 8 + 64) p.data 0 with
  | .error (.invalid e) => .invalid e
  | .error (.unmodelled w) => .unmodelled w
  | .ok (r, rest, gc) =>
    match rest with
    | [] =>
      if gc ≤ 1 then .ok r gc
      else .unmodelled "more than one capturing group"
    | _ => .invalid "unbalanced parenthesis"

/-- A cell of the parsed tabular input: a textual value or a missing value
(pandas NaN, produced for blank cells and short rows). -/
inductive Cell
  | str (s : String)
  | missing
deriving DecidableEq

/-- Models the astype(str) coercion of one first-column scalar: a string is
itself, a missing value becomes the literal text nan. -/
def Cell.toStr : Cell → String
  | .str s => s
  | .missing => "nan"

/-- An uploaded tabular file after pandas parsing: its name, the header row
produced by the header-row convention of read_csv and read_excel, and the
data rows.  Byte-level parse failures are outside the modelled space. -/
structure TabularFile where
  name : String
  header : List String
  rows : List (List Cell)
deriving DecidableEq

/-- The Python exceptions reachable in the modelled flows: an re.error
raised by an invalid pattern, the python-docx failure on a file that is not
a docx package, and the UTF-8 decode failure on bytes that are not text. -/
inductive PyError
  | reError (msg : String)
  | packageNotFound
  | decodeError
deriving DecidableEq

/-- Models set(df.iloc[:, 0].astype(str)): the set of first-column values of
the data rows coerced to text.  A row shorter than the header is padded by
pandas with NaN, so the first cell of an empty row is a missing value. -/
def firstColumnCodes (rows : List (List Cell)) : Finset String :=
  (rows.map (fun r => (r.headD Cell.missing).toStr)).toFinset

/-- Embedding of extract_codes_from_excel_or_csv (src/main.py lines 8-17).
The first component collects the messages passed to st.error; the second is
the Python result, an exception being an error value.  Both the xlsx and the
csv branch read the same parsed table; an unrecognized extension reports an
error message and returns the empty set. -/
def extract_codes_from_excel_or_csv (f : TabularFile) :
    List String × Except PyError (Finset String) :=
  if endsWithStr f.name ".xlsx" then ([], .ok (firstColumnCodes f.rows))
  else if endsWithStr f.name ".csv" then ([], .ok (firstColumnCodes f.rows))
  else (["Unsupported file format!"], .ok ∅)

/-- Content of an uploaded text-bearing file: a docx as its ordered list of
paragraph texts, or a txt as its UTF-8 decoded text. -/
inductive TextContent
  | docx (paragraphs : List String)
  | txt (text : String)
deriving DecidableEq

/-- Whether the content is a docx package. -/
def TextContent.isDocx : TextContent → Bool
  | .docx _ => true
  | .txt _ => false

/-- Whether the content is a plain text file. -/
def TextContent.isTxt : TextContent → Bool
  | .docx _ => false
  | .txt _ => true

/-- An uploaded text-bearing file: its name and its content. -/
structure TextFile where
  name : String
  content : TextContent
deriving DecidableEq

/-- The text the extractor scans: docx paragraphs joined in document order
by newlines, or the txt text itself. -/
def assembleText (f : TextFile) : String :=
  match f.content with
  | .docx ps => String.intercalate "\n" ps
  | .txt t => t

/-- Outcome of one text-extractor run: the set the Python function returns,
the exception it raises, or a run whose pattern is outside the embedded
regex fragment, about which the embedding asserts nothing. -/
inductive TextResult
  | res (s : Finset String)
  | exn (e : PyError)
  | unmodelled
deriving DecidableEq

/-- Whether the outcome is an ordinary returned set. -/
def TextResult.isRes : TextResult → Bool
  | .res _ => true
  | _ => false

/-- Classify the pattern and collect the set of findall results: matched
substrings for a group-free pattern, group captures for a one-group
pattern; a raised re.error becomes an error value, mirroring
set(re.findall(pattern, text)). -/
def runFind (text pat : String) : List String × TextResult :=
  match parsePat pat with
  | .invalid e => ([], .exn (.reError e))
  | .unmodelled _ => ([], .unmodelled)
  | .ok r 0 => ([], .res (findall r text).toFinset)
  | .ok r (_ + 1) => ([], .res (findallG1 r text).toFinset)

/-- Embedding of extract_codes_from_text_or_word (src/main.py lines 19-29).
Dispatch is on the file-name extension; a docx-named file whose content is
not a docx package raises in docx.Document, a txt-named file whose content
is not text raises in decode, and an unrecognized extension reports an error
message and returns the empty set. -/
def extract_codes_from_text_or_word (f : TextFile) (pat : String) :
    List String × TextResult :=
  if endsWithStr f.name ".docx" then
    match f.content with
    | .docx ps => runFind (String.intercalate "\n" ps) pat
    | .txt _ => ([], .exn .packageNotFound)
  else if endsWithStr f.name ".txt" then
    match f.content with
    | .txt t => runFind t pat
    | .docx _ => ([], .exn .decodeError)
  else (["Unsupported file format!"], .res ∅)

/-- Whether the file name routes the text extractor to an implemented
branch and the content matches that branch. -/
def recognizedTextB (f : TextFile) : Bool :=
  (endsWithStr f.name ".docx" && f.content.isDocx) ||
  (!endsWithStr f.name ".docx" && endsWithStr f.name ".txt" && f.content.isTxt)

/-- Embedding of compare_codes (src/main.py lines 31-35): intersection and
the two asymmetric differences of the two code sets. -/
def compare_codes (excel_codes word_codes : Finset String) :
    Finset String × Finset String × Finset String :=
  (excel_codes ∩ word_codes, excel_codes \ word_codes, word_codes \ excel_codes)

/-- A fixed enumeration of a code set, standing for the arbitrary iteration
order of list(s) on a Python set. -/
def sortedList (s : Finset String) : List String :=
  s.sort (· ≤ ·)

/-- The three columns of the output DataFrame; a blank (padded) cell is
none, mirroring the None padding in main. -/
structure ResultTable where
  matching : List (Option String)
  onlyExcel : List (Option String)
  onlyWord : List (Option String)
deriving DecidableEq

/-- Models list(s) + [None] * (max_len - len(s)): the column list padded
with blanks up to the target length. -/
def padToLen (l : List String) (n : Nat) : List (Option String) :=
  l.map some ++ List.replicate (n - l.length) none

/-- Embedding of the output-table construction in main (src/main.py lines
58-69): all three columns are padded to the length of the largest of the
three result sets. -/
def buildResultTable (matching onlyExcel onlyWord : Finset String) : ResultTable :=
  let maxLen := max (max matching.card onlyExcel.card) onlyWord.card
  ⟨padToLen (sortedList matching) maxLen,
   padToLen (sortedList onlyExcel) maxLen,
   padToLen (sortedList onlyWord) maxLen⟩

deriving instance DecidableEq for Except

theorem tabularRecognizedEq (f : TabularFile)
    (h : endsWithStr f.name ".xlsx" = true ∨ endsWithStr f.name ".csv" = true) :
    extract_codes_from_excel_or_csv f = ([], .ok (firstColumnCodes f.rows)) := by
  unfold extract_codes_from_excel_or_csv
  rcases h with h | h
  · simp [h]
  · cases hx : endsWithStr f.name ".xlsx" <;> simp [hx, h]

theorem textRecognizedEq (f : TextFile) (p : String)
    (h : recognizedTextB f = true) :
    extract_codes_from_text_or_word f p = runFind (assembleText f) p := by
  obtain ⟨name, content⟩ := f
  cases content with
  | docx ps =>
    simp only [recognizedTextB, TextContent.isDocx, TextContent.isTxt,
      Bool.and_true, Bool.and_false, Bool.or_false] at h
    simp [extract_codes_from_text_or_word, assembleText, h]
  | txt t =>
    simp only [recognizedTextB, TextContent.isDocx, TextContent.isTxt] at h
    simp at h
    obtain ⟨h1, h2⟩ := h
    simp [extract_codes_from_text_or_word, assembleText, h1, h2]

/-- The txt file of the worked example in the spec. -/
def sampleTxtFile : TextFile :=
  ⟨"notes.txt", .txt "see INT-42 and INT-42 again, also INT-7"⟩

/-- The csv file of the worked example in the spec. -/
def exampleCsvFile : TabularFile :=
  ⟨"codes.csv", ["Code"], [[.str "A-1"], [.str "A-2"], [.str "A-1"]]⟩

/-- A csv file with a header row and no data rows. -/
def emptyCsvFile : TabularFile :=
  ⟨"codes.csv", ["Code"], []⟩

/-- A csv file whose second data row has a blank first cell. -/
def nanCsvFile : TabularFile :=
  ⟨"codes.csv", ["Code"], [[.str "A-1"], [.missing]]⟩

/-- A tabular upload with an extension neither xlsx nor csv. -/
def tabularPdfFile : TabularFile :=
  ⟨"codes.pdf", ["Code"], [[.str "A-1"]]⟩

/-- A text upload with an extension neither docx nor txt. -/
def textPdfFile : TextFile :=
  ⟨"scan.pdf", .txt "see INT-42"⟩

/-- C1: compare_codes returns exactly (L cap R, L minus R, R minus L); the
three sets are pairwise disjoint and the pairwise unions reconstruct L and
R. -/
theorem C1_comparator_set_algebra (L R : Finset String) :
    compare_codes L R = (L ∩ R, L \ R, R \ L) ∧
    Disjoint (L ∩ R) (L \ R) ∧ Disjoint (L ∩ R) (R \ L) ∧
    Disjoint (L \ R) (R \ L) ∧
    (L ∩ R) ∪ (L \ R) = L ∧ (L ∩ R) ∪ (R \ L) = R := by
  refine ⟨rfl, ?_, ?_, ?_, ?_, ?_⟩
  · rw [Finset.disjoint_left]
    intro a ha hb
    exact (Finset.mem_sdiff.mp hb).2 (Finset.mem_inter.mp ha).2
  · rw [Finset.disjoint_left]
    intro a ha hb
    exact (Finset.mem_sdiff.mp hb).2 (Finset.mem_inter.mp ha).1
  · rw [Finset.disjoint_left]
    intro a ha hb
    exact (Finset.mem_sdiff.mp hb).2 (Finset.mem_sdiff.mp ha).1
  · ext a
    simp only [Finset.mem_union, Finset.mem_inter, Finset.mem_sdiff]
    tauto
  · ext a
    simp only [Finset.mem_union, Finset.mem_inter, Finset.mem_sdiff]
    tauto

/-- C3: over a recognized tabular input the extractor returns the set of
first-column values of all data rows coerced to text, duplicates collapsed;
the worked example with header Code and rows A-1, A-2, A-1 evaluates to the
two-element set. -/
theorem C3_tabular_extractor_first_column :
    (∀ f : TabularFile,
        endsWithStr f.name ".xlsx" = true ∨ endsWithStr f.name ".csv" = true →
        extract_codes_from_excel_or_csv f = ([], .ok (firstColumnCodes f.rows))) ∧
    extract_codes_from_excel_or_csv exampleCsvFile =
      ([], .ok ({"A-1", "A-2"} : Finset String)) := by
  refine ⟨tabularRecognizedEq, ?_⟩
  have h : firstColumnCodes exampleCsvFile.rows = ({"A-1", "A-2"} : Finset String) :=
    Finset.Subset.antisymm (by decide) (by decide)
  rw [tabularRecognizedEq exampleCsvFile (Or.inr (by decide)), h]

/-- Witness for C3: the extension hypothesis holds and the conclusion
evaluates at the worked csv example. -/
theorem C3_witness :
    (endsWithStr exampleCsvFile.name ".xlsx" = true ∨
      endsWithStr exampleCsvFile.name ".csv" = true) ∧
    extract_codes_from_excel_or_csv exampleCsvFile =
      ([], .ok (firstColumnCodes exampleCsvFile.rows)) :=
  ⟨Or.inr (by decide),
    C3_tabular_extractor_first_column.1 exampleCsvFile (Or.inr (by decide))⟩

/-- C5: a pattern the model classifies as invalid (a classification sound
for Python: every pattern so classified makes re.compile raise re.error)
makes the text extractor fail with that re.error before any extraction
result is produced; the worked unclosed-class pattern fails exactly so, the
min-above-max counted repeat is also classified invalid, and the
Python-valid word-boundary escape is parsed rather than rejected. -/
theorem C5_invalid_pattern_error :
    (∀ (f : TextFile) (p e : String),
        recognizedTextB f = true → parsePat p = .invalid e →
        extract_codes_from_text_or_word f p = ([], .exn (.reError e))) ∧
    parsePat "[unclosed" = .invalid "unterminated character set" ∧
    extract_codes_from_text_or_word sampleTxtFile "[unclosed" =
      ([], .exn (.reError "unterminated character set")) ∧
    parsePat "a{2,1}" = .invalid "min repeat greater than max repeat" ∧
    (parsePat "\\b").isOkB = true := by
  refine ⟨?_, by decide, by decide, by decide, by decide⟩
  intro f p e hrec hp
  rw [textRecognizedEq f p hrec]
  unfold runFind
  rw [hp]

/-- Witness for C5: the hypotheses hold and the conclusion evaluates at the
sample txt file with the unclosed-class pattern. -/
theorem C5_witness :
    recognizedTextB sampleTxtFile = true ∧
    parsePat "[unclosed" = .invalid "unterminated character set" ∧
    extract_codes_from_text_or_word sampleTxtFile "[unclosed" =
      ([], .exn (.reError "unterminated character set")) :=
  ⟨by decide, by decide,
    C5_invalid_pattern_error.1 sampleTxtFile "[unclosed"
      "unterminated character set" (by decide) (by decide)⟩

/-- C6: a recognized tabular input with no data rows yields the empty set,
with no error message and no exception. -/
theorem C6_empty_tabular_input (f : TabularFile)
    (h : endsWithStr f.name ".xlsx" = true ∨ endsWithStr f.name ".csv" = true)
    (hrows : f.rows = []) :
    extract_codes_from_excel_or_csv f = ([], .ok ∅) := by
  have := tabularRecognizedEq f h
  rw [hrows] at this
  simpa [firstColumnCodes] using this

/-- Witness for C6: the hypotheses hold and the conclusion evaluates at a
header-only csv file. -/
theorem C6_witness :
    (endsWithStr emptyCsvFile.name ".xlsx" = true ∨
      endsWithStr emptyCsvFile.name ".csv" = true) ∧
    emptyCsvFile.rows = [] ∧
    extract_codes_from_excel_or_csv emptyCsvFile = ([], .ok ∅) :=
  ⟨Or.inr (by decide), rfl,
    C6_empty_tabular_input emptyCsvFile (Or.inr (by decide)) rfl⟩

/-- C10: a recognized tabular input with a row whose first cell is missing
does not skip that row; the missing value is coerced to the literal text nan
which becomes a member of the returned set. -/
theorem C10_missing_cell_becomes_nan (f : TabularFile) (row : List Cell)
    (h : endsWithStr f.name ".xlsx" = true ∨ endsWithStr f.name ".csv" = true)
    (hmem : row ∈ f.rows) (hrow : row.headD Cell.missing = Cell.missing) :
    (extract_codes_from_excel_or_csv f).2 = .ok (firstColumnCodes f.rows) ∧
    "nan" ∈ firstColumnCodes f.rows := by
  constructor
  · rw [tabularRecognizedEq f h]
  · unfold firstColumnCodes
    rw [List.mem_toFinset]
    exact List.mem_map.mpr ⟨row, hmem, by rw [hrow]; rfl⟩

/-- Witness for C10: the hypotheses hold and the conclusion evaluates at a
csv file whose second row has a blank first cell. -/
theorem C10_witness :
    (endsWithStr nanCsvFile.name ".xlsx" = true ∨
      endsWithStr nanCsvFile.name ".csv" = true) ∧
    [Cell.missing] ∈ nanCsvFile.rows ∧
    [Cell.missing].headD Cell.missing = Cell.missing ∧
    ((extract_codes_from_excel_or_csv nanCsvFile).2 =
        .ok (firstColumnCodes nanCsvFile.rows) ∧
      "nan" ∈ firstColumnCodes nanCsvFile.rows) :=
  ⟨Or.inr (by decide), by decide, by decide,
    C10_missing_cell_becomes_nan nanCsvFile [Cell.missing]
      (Or.inr (by decide)) (by decide) (by decide)⟩

/-- C4 as stated is false on the code: on an unrecognized extension each
extractor still returns a result, the ok empty set, rather than failing;
here both extractors do so on pdf-named uploads. -/
theorem C4_counterexample :
    (extract_codes_from_excel_or_csv tabularPdfFile).2.isOk = true ∧
    (extract_codes_from_text_or_word textPdfFile "INT-\\d+").2.isRes = true := by
  decide

/-- C4 amended: on an unrecognized extension the extractor reports the
message Unsupported file format! through the UI error channel and returns
the empty set as an ordinary result, so the comparison is not halted. -/
theorem C4_unsupported_format_reports_and_returns_empty :
    (∀ f : TabularFile,
        endsWithStr f.name ".xlsx" = false → endsWithStr f.name ".csv" = false →
        extract_codes_from_excel_or_csv f =
          (["Unsupported file format!"], .ok ∅)) ∧
    (∀ (f : TextFile) (p : String),
        endsWithStr f.name ".docx" = false → endsWithStr f.name ".txt" = false →
        extract_codes_from_text_or_word f p =
          (["Unsupported file format!"], .res ∅)) := by
  constructor
  · intro f h1 h2
    simp [extract_codes_from_excel_or_csv, h1, h2]
  · intro f p h1 h2
    simp [extract_codes_from_text_or_word, h1, h2]

/-- Witness for the amended C4: the hypotheses hold and the conclusions
evaluate at the two pdf-named uploads. -/
theorem C4_witness :
    (endsWithStr tabularPdfFile.name ".xlsx" = false ∧
      endsWithStr tabularPdfFile.name ".csv" = false ∧
      extract_codes_from_excel_or_csv tabularPdfFile =
        (["Unsupported file format!"], .ok ∅)) ∧
    (endsWithStr textPdfFile.name ".docx" = false ∧
      endsWithStr textPdfFile.name ".txt" = false ∧
      extract_codes_from_text_or_word textPdfFile "INT-\\d+" =
        (["Unsupported file format!"], .res ∅)) :=
  ⟨⟨by decide, by decide,
      C4_unsupported_format_reports_and_returns_empty.1 tabularPdfFile
        (by decide) (by decide)⟩,
    ⟨by decide, by decide,
      C4_unsupported_format_reports_and_returns_empty.2 textPdfFile "INT-\\d+"
        (by decide) (by decide)⟩⟩

/-- C7: the comparator is total in the embedding; on both-empty inputs it
returns three empty sets, and against an empty right set it returns the left
set as left-only with the other two empty. -/
theorem C7_comparator_total_on_empty :
    compare_codes (∅ : Finset String) ∅ = (∅, ∅, ∅) ∧
    ∀ L : Finset String, compare_codes L ∅ = (∅, L, ∅) := by
  constructor
  · simp [compare_codes]
  · intro L
    simp [compare_codes]

/-- C8: the comparator is deterministic; identical input sets, however they
were produced, give identical result triples. -/
theorem C8_comparator_deterministic (L R L2 R2 : Finset String)
    (hL : L = L2) (hR : R = R2) :
    compare_codes L R = compare_codes L2 R2 := by
  rw [hL, hR]

/-- Witness for C8: two literally equal pairs of sets compare equal. -/
theorem C8_witness :
    ({"INT-1"} : Finset String) = {"INT-1"} ∧
    ({"INT-2"} : Finset String) = {"INT-2"} ∧
    compare_codes {"INT-1"} {"INT-2"} = compare_codes {"INT-1"} {"INT-2"} :=
  ⟨rfl, rfl, C8_comparator_deterministic {"INT-1"} {"INT-2"} {"INT-1"} {"INT-2"} rfl rfl⟩

theorem padToLen_length (l : List String) (n : Nat) (h : l.length ≤ n) :
    (padToLen l n).length = n := by
  unfold padToLen
  rw [List.length_append, List.length_map, List.length_replicate]
  omega

theorem padToLen_filterMap (l : List String) (n : Nat) :
    (padToLen l n).filterMap id = l := by
  unfold padToLen
  rw [List.filterMap_append]
  have h1 : (l.map some).filterMap id = l := by
    induction l with
    | nil => rfl
    | cons a t ih => simp [List.filterMap_cons, ih]
  have h2 : ((List.replicate (n - l.length) (none : Option String)).filterMap id) = [] := by
    induction n - l.length with
    | zero => rfl
    | succ k ih => simp [List.replicate_succ, List.filterMap_cons, ih]
  rw [h1, h2, List.append_nil]

theorem padToLen_count_none (l : List String) (n : Nat) :
    (padToLen l n).count none = n - l.length := by
  unfold padToLen
  rw [List.count_append]
  have h1 : (l.map some).count none = 0 := by
    rw [List.count_eq_zero]
    simp
  have h2 : (List.replicate (n - l.length) (none : Option String)).count none
      = n - l.length := by
    rw [List.count_replicate_self]
  rw [h1, h2, Nat.zero_add]

/-- C9: in the output table every column has row count equal to the size of
the largest of the three sets, its non-blank cells are exactly the members
of its set with no repetition, and the blanks pad the difference. -/
theorem C9_output_table_shape (m lo ro : Finset String) :
    (buildResultTable m lo ro).matching.length
        = max (max m.card lo.card) ro.card ∧
    (buildResultTable m lo ro).onlyExcel.length
        = max (max m.card lo.card) ro.card ∧
    (buildResultTable m lo ro).onlyWord.length
        = max (max m.card lo.card) ro.card ∧
    ((buildResultTable m lo ro).matching.filterMap id).toFinset = m ∧
    ((buildResultTable m lo ro).matching.filterMap id).Nodup ∧
    ((buildResultTable m lo ro).onlyExcel.filterMap id).toFinset = lo ∧
    ((buildResultTable m lo ro).onlyExcel.filterMap id).Nodup ∧
    ((buildResultTable m lo ro).onlyWord.filterMap id).toFinset = ro ∧
    ((buildResultTable m lo ro).onlyWord.filterMap id).Nodup ∧
    (buildResultTable m lo ro).matching.count none
        = max (max m.card lo.card) ro.card - m.card ∧
    (buildResultTable m lo ro).onlyExcel.count none
        = max (max m.card lo.card) ro.card - lo.card ∧
    (buildResultTable m lo ro).onlyWord.count none
        = max (max m.card lo.card) ro.card - ro.card := by
  have hlen : ∀ s : Finset String, (sortedList s).length = s.card := by
    intro s
    exact Finset.length_sort _
  have hfin : ∀ s : Finset String, (sortedList s).toFinset = s := by
    intro s
    exact Finset.sort_toFinset _ s
  have hnd : ∀ s : Finset String, (sortedList s).Nodup := by
    intro s
    exact Finset.sort_nodup _ s
  refine ⟨?_, ?_, ?_, ?_, ?_, ?_, ?_, ?_, ?_, ?_, ?_, ?_⟩ <;>
    simp only [buildResultTable] <;>
    first
      | (rw [padToLen_length] <;> rw [hlen] <;> omega)
      | (rw [padToLen_filterMap]; first | exact hfin _ | exact hnd _)
      | (rw [padToLen_count_none, hlen])

end CodeComparison
